import Mathlib

/-!
Shallow embedding of the token and credential management subsystem of the
skynet-accounts service, together with theorems settling the specification
claims about it.

The embedding follows the Go source:
  - src/database/publicapikeys.go : the two API-key families and their
    lifecycle operations over MongoDB collections;
  - src/api/handlers.go           : the login dispatch and the quota check;
  - src/unnamed/part_001          : the jwt package (issuance, validation,
    claim extraction, JWKS loading).

MongoDB collections are modelled as lists of documents; the driver
operations used by the source (CountDocuments, InsertOne, UpdateOne,
DeleteOne) are modelled with their client-side validation, in particular
the check that an update document must have a top-level key beginning with
a dollar sign (the mongo-go driver rejects the update client-side
otherwise). Effects (random key material, the wall clock, generated
object ids, file contents) are passed as explicit parameters.
-/

/-- A BSON ObjectID, modelled as the natural number encoded by its 12
bytes. The zero value of the Go type corresponds to 0. -/
structure ObjectID where
  oid : Nat
  deriving DecidableEq, Repr

/-- ObjectID.IsZero from the bson primitive package. -/
def ObjectID.isZero (o : ObjectID) : Bool := o.oid == 0

/-- The fields of database.User that the embedded operations read. -/
structure User where
  id : ObjectID
  sub : String
  email : String
  tier : Nat
  quotaExceeded : Bool
  deriving DecidableEq, Repr

/-- PubAPIKeyRecord from src/database/publicapikeys.go. -/
structure PubAPIKeyRecord where
  id : ObjectID
  userID : ObjectID
  key : String
  skylinks : List String
  createdAt : Int
  deriving DecidableEq, Repr

/-- APIKeyRecord from src/database/publicapikeys.go (second part). -/
structure APIKeyRecord where
  id : ObjectID
  userID : ObjectID
  key : String
  createdAt : Int
  deriving DecidableEq, Repr

/-- A document stored in the schemaless staticAPIKeys collection. The
source inserts a PubAPIKeyRecord into this collection in PubAPIKeyCreate
(line 66), so the collection can hold documents of either shape. -/
inductive MongoDoc where
  | pubKeyDoc (r : PubAPIKeyRecord)
  | apiKeyDoc (r : APIKeyRecord)
  deriving DecidableEq, Repr

/-- The state of the two collections touched by publicapikeys.go. -/
structure DBState where
  staticPubAPIKeys : List PubAPIKeyRecord
  staticAPIKeys : List MongoDoc
  deriving DecidableEq, Repr

/-- The errors surfaced by the embedded database operations. -/
inductive DBErr where
  /-- errors.New with the invalid user message. -/
  | invalidUser
  /-- ErrMaxNumAPIKeysExceeded. -/
  | maxNumAPIKeysExceeded
  /-- ErrInvalidSkylink. -/
  | invalidSkylink
  /-- primitive.ObjectIDFromHex failure, wrapped with the invalid API key
  ID context. -/
  | invalidAPIKeyID
  /-- mongo.ErrNoDocuments. -/
  | noDocuments
  /-- The mongo-go driver error raised when an update document does not
  have a top-level key beginning with a dollar sign. -/
  | updateDocMissingDollarKey
  deriving DecidableEq, Repr

/-- An update document as built in publicapikeys.go: one top-level key
applied to the skylinks array field. The shapes occurring in the source
are the plain replacement document with top key skylinks, a push with
each over a list, and the misspelled pull document with top key pull. -/
structure UpdateDoc where
  topKey : String
  items : List String
  deriving DecidableEq, Repr

/-- Interpretation of the update documents the source builds, applied to
one matched record. Only operator keys are ever interpreted because
updateOne rejects non-operator top-level keys first. -/
def applyUpdate (u : UpdateDoc) (r : PubAPIKeyRecord) : PubAPIKeyRecord :=
  if u.topKey == "$push" then
    { r with skylinks := r.skylinks ++ u.items }
  else if u.topKey == "$pull" then
    { r with skylinks := r.skylinks.filter (fun s => !(u.items.contains s)) }
  else r

/-- Apply an update to the first record matched by the filter, returning
the new collection and the matched count. -/
def updateFirst (flt : PubAPIKeyRecord → Bool) (u : UpdateDoc) :
    List PubAPIKeyRecord → List PubAPIKeyRecord × Nat
  | [] => ([], 0)
  | r :: rs =>
    if flt r then (applyUpdate u r :: rs, 1)
    else ((r :: (updateFirst flt u rs).1), (updateFirst flt u rs).2)

/-- Whether the top-level key of an update document begins with a dollar
sign, which is what the mongo-go driver requires of an update document. -/
def updateDocHasDollarKey (u : UpdateDoc) : Bool :=
  match u.topKey.data with
  | [] => false
  | c :: _ => c == ('$')

/-- UpdateOne with Upsert false, including the client-side validation of
the mongo-go driver: an update document whose first key does not begin
with a dollar sign is rejected before anything reaches the server. -/
def updateOne (coll : List PubAPIKeyRecord) (flt : PubAPIKeyRecord → Bool)
    (u : UpdateDoc) : Except DBErr (List PubAPIKeyRecord × Nat) :=
  if updateDocHasDollarKey u then .ok (updateFirst flt u coll)
  else .error .updateDocMissingDollarKey

/-- DeleteOne: remove the first document matched by the filter, returning
the new collection and the deleted count. -/
def deleteOne (p : α → Bool) : List α → List α × Nat
  | [] => ([], 0)
  | x :: xs =>
    if p x then (xs, 1)
    else ((x :: (deleteOne p xs).1), (deleteOne p xs).2)

/-- Numeric value of one hex digit. -/
def hexVal (c : Char) : Nat :=
  if c.isDigit then c.toNat - (Char.toNat ('0'))
  else if ('a') ≤ c && c ≤ ('f') then c.toNat - (Char.toNat ('a')) + 10
  else if ('A') ≤ c && c ≤ ('F') then c.toNat - (Char.toNat ('A')) + 10
  else 0

/-- Whether a character is a hex digit. -/
def isHexChar (c : Char) : Bool :=
  c.isDigit || (('a') ≤ c && c ≤ ('f')) || (('A') ≤ c && c ≤ ('F'))

/-- primitive.ObjectIDFromHex: a 24-character hex string decodes to an
ObjectID; anything else fails. -/
def ObjectIDFromHex (s : String) : Except DBErr ObjectID :=
  if s.length == 24 && s.toList.all isHexChar then
    .ok ⟨s.toList.foldl (fun acc c => acc * 16 + hexVal c) 0⟩
  else .error .invalidAPIKeyID

/-- PubAPIKeyCreate from src/database/publicapikeys.go lines 42 to 72.
MaxNumAPIKeysPerUser and ValidSkylinkHash live elsewhere in the
repository and are passed as parameters; newKey, now and insertedID stand
for the random key material, the wall clock and the id generated by
InsertOne. Note two facts taken directly from the source: the per-user
count is compared with a strict greater-than (line 51), and the new
record is inserted into the staticAPIKeys collection (line 66), not into
staticPubAPIKeys. -/
def PubAPIKeyCreate (maxNumAPIKeysPerUser : Nat) (validSkylinkHash : String → Bool)
    (db : DBState) (user : User) (skylinks : List String)
    (newKey : String) (now : Int) (insertedID : ObjectID) :
    Except DBErr (PubAPIKeyRecord × DBState) :=
  if user.id.isZero then .error .invalidUser
  else
    let n := (db.staticPubAPIKeys.filter (fun r => r.userID == user.id)).length
    if n > maxNumAPIKeysPerUser then .error .maxNumAPIKeysExceeded
    else if skylinks.any (fun s => !(validSkylinkHash s)) then .error .invalidSkylink
    else
      let pakRec : PubAPIKeyRecord :=
        { id := insertedID, userID := user.id, key := newKey,
          skylinks := skylinks, createdAt := now }
      .ok (pakRec, { db with staticAPIKeys := db.staticAPIKeys ++ [.pubKeyDoc pakRec] })

/-- PubAPIKeyUpdate from src/database/publicapikeys.go lines 74 to 96.
The update document is the plain replacement document with top key
skylinks (line 90), which the driver rejects client-side; errors from
UpdateOne are returned as-is and the matched count is never inspected. -/
def PubAPIKeyUpdate (validSkylinkHash : String → Bool) (db : DBState)
    (user : User) (pak : String) (skylinks : List String) :
    Option DBErr × DBState :=
  if user.id.isZero then (some .invalidUser, db)
  else if skylinks.any (fun s => !(validSkylinkHash s)) then (some .invalidSkylink, db)
  else
    match updateOne db.staticPubAPIKeys
        (fun r => r.key == pak && r.userID == user.id)
        { topKey := "skylinks", items := skylinks } with
    | .error e => (some e, db)
    | .ok (coll, _) => (none, { db with staticPubAPIKeys := coll })

/-- PubAPIKeyPatch from src/database/publicapikeys.go lines 98 to 140.
Taken directly from the source: both UpdateOne filters match on the key
alone without the user id (lines 113 and 127); the push uses the each
operator over addSkylinks; the removal update document has top-level key
pull without a dollar sign (line 129) and lists addSkylinks, not
removeSkylinks, under the in operator. The first update reaches the
database even when the second one fails, so the function returns the
possibly partially-updated state together with the error. -/
def PubAPIKeyPatch (validSkylinkHash : String → Bool) (db : DBState)
    (user : User) (pak : String) (addSkylinks removeSkylinks : List String) :
    Option DBErr × DBState :=
  if user.id.isZero then (some .invalidUser, db)
  else if (addSkylinks ++ removeSkylinks).any (fun s => !(validSkylinkHash s)) then
    (some .invalidSkylink, db)
  else
    let afterPush : Except DBErr (List PubAPIKeyRecord) :=
      if addSkylinks.length > 0 then
        match updateOne db.staticPubAPIKeys (fun r => r.key == pak)
            { topKey := "$push", items := addSkylinks } with
        | .error e => .error e
        | .ok (coll, _) => .ok coll
      else .ok db.staticPubAPIKeys
    match afterPush with
    | .error e => (some e, db)
    | .ok coll1 =>
      if removeSkylinks.length > 0 then
        match updateOne coll1 (fun r => r.key == pak)
            { topKey := "pull", items := addSkylinks } with
        | .error e => (some e, { db with staticPubAPIKeys := coll1 })
        | .ok (coll2, _) => (none, { db with staticPubAPIKeys := coll2 })
      else (none, { db with staticPubAPIKeys := coll1 })

/-- PubAPIKeyDelete from src/database/publicapikeys.go lines 142 to 163.
The filter matches on the record id and the user id together, and a zero
deleted count is reported as mongo.ErrNoDocuments. -/
def PubAPIKeyDelete (db : DBState) (user : User) (pakID : String) :
    Option DBErr × DBState :=
  if user.id.isZero then (some .invalidUser, db)
  else
    match ObjectIDFromHex pakID with
    | .error e => (some e, db)
    | .ok idv =>
      let (coll, deleted) :=
        deleteOne (fun r => r.id == idv && r.userID == user.id) db.staticPubAPIKeys
      if deleted == 0 then (some .noDocuments, { db with staticPubAPIKeys := coll })
      else (none, { db with staticPubAPIKeys := coll })

/-- The Mongo filter of APIKeyDelete matches any document of the
schemaless collection whose key and user id fields equal the given
values, whichever record shape it has. -/
def mongoDocMatches (ak : String) (uid : ObjectID) : MongoDoc → Bool
  | .pubKeyDoc r => r.key == ak && r.userID == uid
  | .apiKeyDoc r => r.key == ak && r.userID == uid

/-- APIKeyDelete from src/database/publicapikeys.go lines 254 to 265.
The filter matches on the key value and the user id together; the deleted
count of DeleteOne is discarded (line 263), so a delete that affects zero
documents still returns success. -/
def APIKeyDelete (db : DBState) (user : User) (ak : String) :
    Option DBErr × DBState :=
  if user.id.isZero then (some .invalidUser, db)
  else
    let (coll, _) := deleteOne (mongoDocMatches ak user.id) db.staticAPIKeys
    (none, { db with staticAPIKeys := coll })

/-!
The jwt package (src/unnamed/part_001). JSON claim values are modelled by
JValue; a parsed token is its claim list. Signing is modelled abstractly:
a serialized token carries either a genuine signature by some key over
its own payload, or a corrupted signature (which also stands for a
payload that was tampered with after signing). Keys are identified by a
key id; the public version of a key set keeps the key ids, so signatures
made with the full set verify against the public set.
-/

/-- A JSON value as it appears among parsed JWT claims. -/
inductive JValue where
  | null
  | bool (b : Bool)
  | num (n : Int)
  | str (s : String)
  | map (entries : List (String × JValue))

/-- The claim list of a parsed token. -/
abbrev Claims := List (String × JValue)

/-- Fetch a claim by name, mirroring Get on a parsed jwx token and Go map
indexing on a decoded claim map (a missing key yields none, which stands
for the nil interface value). -/
def getClaim (k : String) : List (String × JValue) → Option JValue
  | [] => none
  | (k2, v) :: rest => if k2 == k then some v else getClaim k rest

/-- A key of the JWKS, with its declared algorithm field. The hasPrivate
flag distinguishes the full key from its public-only version; the key id
is what signature verification matches on. -/
structure JWKey where
  kid : Nat
  algorithm : String
  hasPrivate : Bool
  deriving DecidableEq, Repr

/-- A JSON Web Key Set (jwk.Set). -/
structure JWKS where
  keys : List JWKey
  deriving DecidableEq, Repr

/-- jwk.PublicSetOf: the public-only version of a key set. Its keys keep
their ids and algorithms. -/
def PublicSetOf (s : JWKS) : JWKS :=
  ⟨s.keys.map (fun k => { k with hasPrivate := false })⟩

/-- The signature part of a serialized token: either a genuine signature
by a key over the payload it travels with, or one that does not verify
(corrupted bytes, or a payload altered after signing). -/
inductive Sig where
  | valid (key : JWKey)
  | corrupted
  deriving DecidableEq, Repr

/-- A serialized JWT: either not parseable at all, or a payload together
with its signature part. -/
inductive SerializedJWT where
  | malformed
  | token (payload : Claims) (sig : Sig)

/-- The errors surfaced by the embedded jwt package. -/
inductive JWTErr where
  /-- jwt.Parse failure on input that is not a three-part token. -/
  | parseFailure
  /-- signature verification failure inside jwt.Parse with a key set. -/
  | verifyFailure
  /-- ErrTokenExpired. -/
  | tokenExpired
  /-- the JWKS is empty error of signatureAlgoAndKey. -/
  | emptyJWKS
  /-- the failed to determine signature algorithm error. -/
  | noSignatureAlgo
  /-- the email and sub cannot be empty error of tokenForUser. -/
  | emptyEmailOrSub
  deriving DecidableEq, Repr

/-- jwt.Parse with a key set: fails on malformed input, fails when the
signature does not verify against any key of the set (matched by key
id), and returns the payload claims otherwise. -/
def jwtParseWithKeySet (ks : JWKS) : SerializedJWT → Except JWTErr Claims
  | .malformed => .error .parseFailure
  | .token payload sig =>
    match sig with
    | .corrupted => .error .verifyFailure
    | .valid key =>
      if ks.keys.any (fun k2 => k2.kid == key.kid) then .ok payload
      else .error .verifyFailure

/-- Expiration of a parsed token: the exp claim when it is numeric, and
the zero time otherwise (jwx returns the zero time for a missing claim). -/
def expiration (t : Claims) : Int :=
  match getClaim ("exp") t with
  | some (.num n) => n
  | _ => 0

/-- ValidateToken from src/unnamed/part_001 lines 358 to 367: parse and
verify against the public key set, then fail with ErrTokenExpired when
the expiry claim is strictly before the current time. -/
def ValidateToken (accountsPublicJWKS : JWKS) (now : Int) (t : SerializedJWT) :
    Except JWTErr Claims :=
  match jwtParseWithKeySet accountsPublicJWKS t with
  | .error e => .error e
  | .ok token => if expiration token < now then .error .tokenExpired else .ok token

/-- jwa.SignatureAlgorithms of the jwx library: the supported signature
algorithm names. -/
def SignatureAlgorithms : List String :=
  ["ES256", "ES384", "ES512", "EdDSA", "HS256", "HS384", "HS512",
   "none", "PS256", "PS384", "PS512", "RS256", "RS384", "RS512"]

/-- signatureAlgoAndKey from src/unnamed/part_001 lines 404 to 421: take
the first key of the cached JWKS (failing when the set is empty) and find
the supported algorithm matching its algorithm field (failing when none
matches). -/
def signatureAlgoAndKey (accountsJWKS : JWKS) : Except JWTErr (String × JWKey) :=
  match accountsJWKS.keys.head? with
  | none => .error .emptyJWKS
  | some key =>
    match SignatureAlgorithms.find? (fun sa => sa == key.algorithm) with
    | none => .error .noSignatureAlgo
    | some sa => .ok (sa, key)

/-- TTL from src/unnamed/part_001 line 136, in seconds. -/
def TTL : Int := 720 * 3600

/-- PortalName from src/unnamed/part_001 line 133. -/
def PortalName : String := "https://siasky.net"

/-- The claim set built by tokenForUser: exp, iat, iss, sub and the
session block with the active flag and the identity traits email. -/
def tokenForUserClaims (emailAddr sub : String) (now : Int) : Claims :=
  [("exp", .num (now + TTL)),
   ("iat", .num now),
   ("iss", .str PortalName),
   ("sub", .str sub),
   ("session", .map [("active", .bool true),
                     ("identity", .map [("traits", .map [("email", .str emailAddr)])])])]

/-- tokenForUser from src/unnamed/part_001 lines 423 to 449: the unsigned
claim set for a user, or an error when the email or the sub is empty. -/
def tokenForUser (emailAddr sub : String) (now : Int) : Except JWTErr Claims :=
  if emailAddr == "" || sub == "" then .error .emptyEmailOrSub
  else .ok (tokenForUserClaims emailAddr sub now)

/-- TokenForUser from src/unnamed/part_001 lines 164 to 186: obtain the
signing key, build the claims, sign them and parse the result back. The
parse of a freshly signed token returns its claim set. -/
def TokenForUser (accountsJWKS : JWKS) (email sub : String) (now : Int) :
    Except JWTErr Claims :=
  match signatureAlgoAndKey accountsJWKS with
  | .error e => .error e
  | .ok _ =>
    match tokenForUser email sub now with
    | .error e => .error e
    | .ok t => .ok t

/-- TokenSerialize from src/unnamed/part_001 lines 279 to 286: sign the
claim set with the current signing key. -/
def TokenSerialize (accountsJWKS : JWKS) (t : Claims) : Except JWTErr SerializedJWT :=
  match signatureAlgoAndKey accountsJWKS with
  | .error e => .error e
  | .ok (_, key) => .ok (.token t (.valid key))

/-- The outcome of a Go function that can return a value, return an
error, or hit a run-time fault (a panic from a failed type assertion or
nil dereference). -/
inductive Outcome (α : Type) where
  | ok (val : α)
  | err (msg : String)
  | fault (msg : String)
  deriving DecidableEq, Repr

/-- Whether an outcome is a run-time fault. -/
def Outcome.isFault : Outcome α → Bool
  | .fault _ => true
  | _ => false

/-- TokenFields from src/unnamed/part_001 lines 188 to 209, extracting
the sub and the email from a parsed token. The source converts the claim
values with unchecked single-form type assertions; in Go those panic when
the value has a different shape or is absent (a missing map key yields
the nil interface, whose assertion to a concrete type panics). The nil
check on the traits map can only see a non-nil map after a successful
assertion, so it never fires. -/
def TokenFields (t : Claims) : Outcome (String × String) :=
  match getClaim ("sub") t with
  | none => .err ("sub field missing")
  | some sv =>
    match sv with
    | .str s =>
      if s == "" then .err ("sub field missing")
      else
        match getClaim ("session") t with
        | none => .err ("session field missing")
        | some sessv =>
          match sessv with
          | .map session =>
            match getClaim ("identity") session with
            | some (.map identity) =>
              match getClaim ("traits") identity with
              | some (.map traits) =>
                match getClaim ("email") traits with
                | some (.str email) => .ok (s, email)
                | _ => .fault ("interface conversion")
              | _ => .fault ("interface conversion")
            | _ => .fault ("interface conversion")
          | _ => .fault ("interface conversion")
    | _ => .fault ("interface conversion")

/-- The value stored under the token context key, as seen by
TokenFromContext: absent, of the wrong dynamic type, or a parsed token. -/
inductive CtxTokenValue where
  | absent
  | wrongType
  | token (t : Claims)

/-- The deferred recover of TokenFromContext (src/unnamed/part_001 lines
261 to 270): any fault raised in the function body is converted into an
error carrying the fault message. -/
def recoverOutcome : Outcome α → Outcome α
  | .fault m => .err ("failed to parse token from context. error: " ++ m)
  | o => o

/-- The body of TokenFromContext before the deferred recover: an absent
value makes the error branch dereference a nil reflect type, which
faults; a value of the wrong type is reported as an error; otherwise the
fields are extracted with TokenFields. -/
def tokenFromContextBody : CtxTokenValue → Outcome (String × String)
  | .absent => .fault ("runtime error: invalid memory address or nil pointer dereference")
  | .wrongType => .err ("invalid token type")
  | .token t => TokenFields t

/-- TokenFromContext from src/unnamed/part_001 lines 260 to 277: the body
guarded by the deferred recover. -/
def TokenFromContext (v : CtxTokenValue) : Outcome (String × String) :=
  recoverOutcome (tokenFromContextBody v)

/-- The source of the JWKS file as LoadAccountsKeySet sees it: unreadable
(ReadFile fails), readable but not valid JSON for a key set (Unmarshal
fails), or well-formed with some list of keys, possibly empty. -/
inductive KeySource where
  | unreadable
  | malformedJSON
  | wellFormed (s : JWKS)

/-- The errors of LoadAccountsKeySet. -/
inductive LoadErr where
  /-- the ReadFile error. -/
  | readFailure
  /-- the json.Unmarshal error. -/
  | parseFailure
  deriving DecidableEq, Repr

/-- The cached key material after a successful load. -/
structure JWKSCache where
  accountsJWKS : JWKS
  accountsPublicJWKS : JWKS
  deriving DecidableEq, Repr

/-- LoadAccountsKeySet from src/unnamed/part_001 lines 377 to 401: fail
when the file is unreadable, fail when its contents do not unmarshal,
and otherwise cache the set together with its public version. The
source never checks whether the loaded set is empty; jwk.PublicSetOf is
modelled as total since it does not fail on an empty set. -/
def LoadAccountsKeySet (src : KeySource) : Except LoadErr JWKSCache :=
  match src with
  | .unreadable => .error .readFailure
  | .malformedJSON => .error .parseFailure
  | .wellFormed s => .ok { accountsJWKS := s, accountsPublicJWKS := PublicSetOf s }

/-!
The api handlers (src/api/handlers.go): the quota check and the login
dispatch.
-/

/-- One entry of database.UserLimits, as read by the handlers. -/
structure TierLimits where
  tierName : String
  uploadBandwidth : Int
  downloadBandwidth : Int
  maxUploadSize : Int
  maxNumberUploads : Int
  registryDelay : Int
  storage : Int
  deriving DecidableEq, Repr

/-- The fields of database.UserStats read by checkUserQuotas. -/
structure UserStats where
  numUploads : Int
  totalUploadsSize : Int
  deriving DecidableEq, Repr

/-- checkUserQuotas from src/api/handlers.go lines 616 to 633. The
UserStats fetch is passed as a parameter; none stands for a failed fetch,
on which the function logs and returns without touching the user. The
result is the user record after the call together with whether UserSave
was invoked. -/
def checkUserQuotas (userLimits : Nat → TierLimits) (u : User)
    (stats : Option UserStats) : User × Bool :=
  match stats with
  | none => (u, false)
  | some us =>
    let q := userLimits u.tier
    let quotaExceeded :=
      decide (us.numUploads > q.maxNumberUploads) || decide (us.totalUploadsSize > q.storage)
    if quotaExceeded != u.quotaExceeded then
      ({ u with quotaExceeded := quotaExceeded }, true)
    else (u, false)

/-- The parts of a login request that loginPOST reads: the two form
values and whatever token travels with the request (header or cookie). -/
structure LoginRequest where
  email : String
  password : String
  token : Option SerializedJWT

/-- Which helper loginPOST hands the request to: the credentials helper
with the two form values, or the token helper with the attached token. -/
inductive LoginAction where
  | credentials (email password : String)
  | token (tok : Option SerializedJWT)

/-- loginPOST from src/api/handlers.go lines 70 to 87: when both the
email and the password form values are non-empty the request goes to
loginPOSTCredentials with exactly those two values, and otherwise to
loginPOSTToken, which is the only reader of the attached token. -/
def loginPOST (req : LoginRequest) : LoginAction :=
  if req.email != "" && req.password != "" then .credentials req.email req.password
  else .token req.token

/-!
Helper lemmas about the collection primitives.
-/

/-- deleteOne leaves a collection unchanged when nothing matches. -/
theorem deleteOne_all_not_matching {α : Type} (p : α → Bool) (l : List α)
    (h : ∀ x ∈ l, p x = false) : deleteOne p l = (l, 0) := by
  induction l with
  | nil => rfl
  | cons x xs ih =>
    have hx : p x = false := h x (by simp)
    have hxs : deleteOne p xs = (xs, 0) := ih (fun y hy => h y (by simp [hy]))
    simp [deleteOne, hx, hxs]

/-- Every element that deleteOne removes satisfied the filter. -/
theorem deleteOne_removed_matches {α : Type} (p : α → Bool) (l : List α) :
    ∀ x ∈ l, x ∉ (deleteOne p l).1 → p x = true := by
  induction l with
  | nil => intro x hx; simp at hx
  | cons y ys ih =>
    intro x hx hnot
    by_cases hy : p y = true
    · rcases List.mem_cons.mp hx with rfl | hxs
      · exact hy
      · exact absurd hxs (by simpa [deleteOne, hy] using hnot)
    · have hy2 : p y = false := by simpa using hy
      rw [deleteOne, if_neg (by simp [hy2])] at hnot
      rcases List.mem_cons.mp hx with rfl | hxs
      · exact absurd (List.mem_cons_self x _) hnot
      · exact ih x hxs (fun hmem => hnot (List.mem_cons_of_mem y hmem))

/-!
Claims about the credential store.
-/

/-- Claim C1. The claim states that an owner already holding the
configured maximum number of scoped keys has the next PubAPIKeyCreate
call fail with ErrMaxNumAPIKeysExceeded and stores nothing. The source
compares the count with a strict greater-than (line 51), so the call at
exactly the maximum succeeds, and the new record is inserted into the
staticAPIKeys collection (line 66) while the scoped-key collection keeps
its old contents. This theorem evaluates the code at that failing input. -/
theorem pubAPIKeyCreate_at_limit_inserts
    (maxNum : Nat) (valid : String → Bool) (db : DBState) (user : User)
    (newKey : String) (now : Int) (oid : ObjectID)
    (hUser : user.id.isZero = false)
    (hCount : (db.staticPubAPIKeys.filter (fun r => r.userID == user.id)).length = maxNum) :
    PubAPIKeyCreate maxNum valid db user [] newKey now oid =
      .ok ({ id := oid, userID := user.id, key := newKey, skylinks := [], createdAt := now },
           { db with staticAPIKeys := db.staticAPIKeys ++
               [.pubKeyDoc { id := oid, userID := user.id, key := newKey,
                             skylinks := [], createdAt := now }] }) := by
  unfold PubAPIKeyCreate
  simp [hUser, hCount]

/-- Witness for pubAPIKeyCreate_at_limit_inserts: a user holding exactly
one scoped key with the maximum configured as one. -/
theorem pubAPIKeyCreate_at_limit_inserts_witness :
    PubAPIKeyCreate 1 (fun _ => true)
        ⟨[⟨⟨5⟩, ⟨1⟩, "K1", [], 0⟩], []⟩ ⟨⟨1⟩, "subj", "mail", 0, false⟩
        [] "K2" 0 ⟨6⟩ =
      .ok (⟨⟨6⟩, ⟨1⟩, "K2", [], 0⟩,
           ⟨[⟨⟨5⟩, ⟨1⟩, "K1", [], 0⟩], [.pubKeyDoc ⟨⟨6⟩, ⟨1⟩, "K2", [], 0⟩]⟩) :=
  pubAPIKeyCreate_at_limit_inserts 1 (fun _ => true)
    ⟨[⟨⟨5⟩, ⟨1⟩, "K1", [], 0⟩], []⟩ ⟨⟨1⟩, "subj", "mail", 0, false⟩
    "K2" 0 ⟨6⟩ (by decide) (by decide)

/-- Claim C2. The claim states that patching a scoped key holding the
allow-list B, C with add A and remove B succeeds and yields A, C up to
order. Evaluating the source on that input: the push of A goes through,
and the removal update document has the non-operator top-level key pull
and lists the added skylinks, so the driver rejects it; the call returns
an error and the stored allow-list is B, C, A. -/
theorem pubAPIKeyPatch_add_remove_result :
    PubAPIKeyPatch (fun _ => true)
        ⟨[⟨⟨5⟩, ⟨1⟩, "KEY", ["B", "C"], 0⟩], []⟩ ⟨⟨1⟩, "subj", "mail", 0, false⟩
        "KEY" ["A"] ["B"] =
      (some .updateDocMissingDollarKey,
       ⟨[⟨⟨5⟩, ⟨1⟩, "KEY", ["B", "C", "A"], 0⟩], []⟩) := by
  decide

/-- Claim C4. The claim states that PubAPIKeyUpdate and PubAPIKeyPatch
match the stored record by owner and id together and report a zero-row
update as not found. Evaluating the source: the update document of
PubAPIKeyUpdate has the non-operator top-level key skylinks, so every
call that passes the input validation fails client-side with the driver
error and changes nothing; the filters of PubAPIKeyPatch match on the key
alone, so a patch by a non-owner still modifies the record; and a patch
whose filter matches zero rows returns success rather than not found. -/
theorem pubAPIKeyUpdate_patch_divergence :
    (∀ (valid : String → Bool) (db : DBState) (user : User) (pak : String)
       (skylinks : List String),
       user.id.isZero = false →
       skylinks.any (fun s => !(valid s)) = false →
       PubAPIKeyUpdate valid db user pak skylinks = (some .updateDocMissingDollarKey, db))
    ∧ PubAPIKeyPatch (fun _ => true)
        ⟨[⟨⟨5⟩, ⟨1⟩, "KEY", ["B"], 0⟩], []⟩ ⟨⟨2⟩, "subj", "mail", 0, false⟩
        "KEY" ["A"] [] =
      (none, ⟨[⟨⟨5⟩, ⟨1⟩, "KEY", ["B", "A"], 0⟩], []⟩)
    ∧ PubAPIKeyPatch (fun _ => true)
        ⟨[], []⟩ ⟨⟨1⟩, "subj", "mail", 0, false⟩ "KEY" ["A"] [] =
      (none, ⟨[], []⟩) := by
  refine ⟨?_, by decide, by decide⟩
  intro valid db user pak skylinks hUser hValid
  unfold PubAPIKeyUpdate
  simp [hUser, hValid, updateOne, updateDocHasDollarKey]

/-- Witness for pubAPIKeyUpdate_patch_divergence: a concrete update call
that passes the input validation and still fails with the driver error. -/
theorem pubAPIKeyUpdate_patch_divergence_witness :
    PubAPIKeyUpdate (fun _ => true) ⟨[], []⟩ ⟨⟨1⟩, "subj", "mail", 0, false⟩
        "K" ["A"] = (some .updateDocMissingDollarKey, ⟨[], []⟩) :=
  pubAPIKeyUpdate_patch_divergence.1 (fun _ => true) ⟨[], []⟩
    ⟨⟨1⟩, "subj", "mail", 0, false⟩ "K" ["A"] (by decide) (by decide)

/-- Claim C7, counterexample. The claim states that deleting a
credential of either kind fails with a not-found error when zero records
are affected. APIKeyDelete on an empty collection affects zero records
and still returns success, because the source discards the deleted count
(line 263). -/
theorem apiKeyDelete_zero_affected_succeeds :
    APIKeyDelete ⟨[], []⟩ ⟨⟨1⟩, "subj", "mail", 0, false⟩ "AK" =
      (none, ⟨[], []⟩) := by
  decide

/-- Claim C7, amended. Both deletes match the stored record by the owner
and the credential identifier together (the scoped kind by record id, the
full kind by key value): every removed document satisfied the combined
filter. A zero-affected delete fails with mongo.ErrNoDocuments for the
scoped kind, while the full kind returns success no matter how many
documents were affected. -/
theorem credentialDelete_ownership_scoped :
    (∀ (db : DBState) (user : User) (pakID : String) (idv : ObjectID),
       user.id.isZero = false →
       ObjectIDFromHex pakID = .ok idv →
       ((∀ r ∈ db.staticPubAPIKeys, (r.id == idv && r.userID == user.id) = false) →
          PubAPIKeyDelete db user pakID = (some .noDocuments, db))
       ∧ (∀ r ∈ db.staticPubAPIKeys,
            r ∉ (PubAPIKeyDelete db user pakID).2.staticPubAPIKeys →
            (r.id == idv && r.userID == user.id) = true))
    ∧ (∀ (db : DBState) (user : User) (ak : String),
       user.id.isZero = false →
       (APIKeyDelete db user ak).1 = none
       ∧ (∀ d ∈ db.staticAPIKeys,
            d ∉ (APIKeyDelete db user ak).2.staticAPIKeys →
            mongoDocMatches ak user.id d = true)) := by
  constructor
  · intro db user pakID idv hUser hHex
    have hproj : (PubAPIKeyDelete db user pakID).2.staticPubAPIKeys
        = (deleteOne (fun r => r.id == idv && r.userID == user.id)
            db.staticPubAPIKeys).1 := by
      unfold PubAPIKeyDelete
      simp only [hUser, Bool.false_eq_true, if_false, hHex]
      split
      · rfl
      · rfl
    constructor
    · intro hNone
      have hdel := deleteOne_all_not_matching
        (fun r => r.id == idv && r.userID == user.id) db.staticPubAPIKeys hNone
      unfold PubAPIKeyDelete
      simp [hUser, hHex, hdel]
    · intro r hr hnot
      apply deleteOne_removed_matches (fun r => r.id == idv && r.userID == user.id)
        db.staticPubAPIKeys r hr
      intro hmem
      exact hnot (hproj ▸ hmem)
  · intro db user ak hUser
    constructor
    · unfold APIKeyDelete
      simp [hUser]
    · intro d hd hnot
      apply deleteOne_removed_matches (mongoDocMatches ak user.id) db.staticAPIKeys d hd
      intro hmem
      apply hnot
      unfold APIKeyDelete
      simpa [hUser] using hmem

/-- Witness for credentialDelete_ownership_scoped: a scoped-key delete on
a collection holding no matching record fails with the no-documents
error. -/
theorem credentialDelete_ownership_scoped_witness :
    PubAPIKeyDelete ⟨[], []⟩ ⟨⟨1⟩, "subj", "mail", 0, false⟩
        ("000000000000000000000007") = (some .noDocuments, ⟨[], []⟩) :=
  ((credentialDelete_ownership_scoped.1 ⟨[], []⟩ ⟨⟨1⟩, "subj", "mail", 0, false⟩
      ("000000000000000000000007") ⟨7⟩ (by decide) (by rfl)).1
    (by intro r hr; simp at hr))

/-!
Claims about the jwt package.
-/

/-- Claim C3, counterexample. The claim states that, given a present
non-empty sub and a present session block, a missing email is tolerated
and returned as the empty string, and a structurally malformed session
block fails with a typed malformed-claims error rather than a run-time
fault. On the source, extracting the fields of a token whose traits map
has no email hits an unchecked type assertion on a nil value and faults,
and a session block that is not a map faults at its assertion as well. -/
theorem tokenFields_fault_counterexample :
    TokenFields
        [(("sub"), .str ("s")),
         (("session"), .map [(("active"), .bool true),
                             (("identity"), .map [(("traits"), .map [])])])] =
      .fault ("interface conversion")
    ∧ TokenFields [(("sub"), .str ("s")), (("session"), .str ("oops"))] =
      .fault ("interface conversion") := by
  exact ⟨rfl, rfl⟩

/-- Claim C3, amended. TokenFields itself faults on a missing email and
on a structurally malformed session block, but the exported
TokenFromContext runs it under a deferred recover, so extraction through
TokenFromContext never raises an unrecoverable fault: every fault is
converted into a generic error (not a typed malformed-claims error, and
not an empty-string email). -/
theorem tokenFromContext_never_faults :
    (∀ v : CtxTokenValue, (TokenFromContext v).isFault = false)
    ∧ TokenFromContext (.token
        [(("sub"), .str ("s")),
         (("session"), .map [(("active"), .bool true),
                             (("identity"), .map [(("traits"), .map [])])])]) =
      .err ("failed to parse token from context. error: interface conversion")
    ∧ TokenFromContext (.token [(("sub"), .str ("s")), (("session"), .str ("oops"))]) =
      .err ("failed to parse token from context. error: interface conversion") := by
  refine ⟨?_, rfl, rfl⟩
  intro v
  cases v with
  | absent => rfl
  | wrongType => rfl
  | token t =>
    show (recoverOutcome (TokenFields t)).isFault = false
    cases TokenFields t with
    | ok val => rfl
    | err m => rfl
    | fault m => rfl

/-- Claim C9, counterexample. The claim states that loading a readable,
well-formed key set containing zero keys fails with an empty-set error.
On the source, LoadAccountsKeySet performs no emptiness check, so the
empty set loads successfully. -/
theorem loadAccountsKeySet_empty_set_loads :
    LoadAccountsKeySet (.wellFormed ⟨[]⟩) = .ok ⟨⟨[]⟩, ⟨[]⟩⟩ := rfl

/-- Claim C9, amended. Loading fails with the read error when the source
is unreadable and with the parse error when its contents are malformed; a
readable, well-formed set loads successfully whatever its size, zero keys
included, and the empty-set error is raised only later by
signatureAlgoAndKey when the signing key is requested from an empty
cached set. -/
theorem loadAccountsKeySet_spec :
    LoadAccountsKeySet .unreadable = .error .readFailure
    ∧ LoadAccountsKeySet .malformedJSON = .error .parseFailure
    ∧ (∀ s : JWKS, LoadAccountsKeySet (.wellFormed s) = .ok ⟨s, PublicSetOf s⟩)
    ∧ signatureAlgoAndKey ⟨[]⟩ = .error .emptyJWKS := by
  exact ⟨rfl, rfl, fun s => rfl, rfl⟩

/-- Claim C6. A well-signed token whose expiry claim is strictly before
the current time fails with the token-expired error, the expiry being
inspected only after signature verification succeeded; malformed input
and tokens whose signature does not verify fail with parse or
verification errors, which are distinct from the token-expired error,
whatever their expiry claim says. -/
theorem validateToken_expiry_after_signature :
    (∀ (ks : JWKS) (now : Int) (payload : Claims) (key : JWKey),
       ks.keys.any (fun k2 => k2.kid == key.kid) = true →
       expiration payload < now →
       ValidateToken ks now (.token payload (.valid key)) = .error .tokenExpired)
    ∧ (∀ (ks : JWKS) (now : Int),
       ValidateToken ks now .malformed = .error .parseFailure)
    ∧ (∀ (ks : JWKS) (now : Int) (payload : Claims),
       ValidateToken ks now (.token payload .corrupted) = .error .verifyFailure)
    ∧ (∀ (ks : JWKS) (now : Int) (payload : Claims) (key : JWKey),
       ks.keys.any (fun k2 => k2.kid == key.kid) = false →
       ValidateToken ks now (.token payload (.valid key)) = .error .verifyFailure)
    ∧ JWTErr.parseFailure ≠ .tokenExpired ∧ JWTErr.verifyFailure ≠ .tokenExpired := by
  refine ⟨?_, fun ks now => rfl, fun ks now payload => rfl, ?_, by decide, by decide⟩
  · intro ks now payload key hkey hexp
    unfold ValidateToken jwtParseWithKeySet
    simp [hkey, hexp]
  · intro ks now payload key hkey
    unfold ValidateToken jwtParseWithKeySet
    simp [hkey]

/-- Witness for validateToken_expiry_after_signature: a token signed by
the only key of the set, with its expiry one second before the current
time, fails with the token-expired error. -/
theorem validateToken_expiry_after_signature_witness :
    ValidateToken ⟨[⟨1, "RS256", false⟩]⟩ 10
        (.token [(("exp"), .num 9)] (.valid ⟨1, "RS256", true⟩)) =
      .error .tokenExpired :=
  validateToken_expiry_after_signature.1 ⟨[⟨1, "RS256", false⟩]⟩ 10
    [(("exp"), .num 9)] ⟨1, "RS256", true⟩ (by decide) (by norm_num [expiration, getClaim])

/-- Claim C5. For every identity with a non-empty subject and email, and
a cached key set whose first key declares a supported algorithm, issuing
a token, serializing it, validating the serialized token against the
public version of the key set and extracting the fields returns exactly
the original subject and email. -/
theorem token_roundtrip
    (s : JWKS) (email sub : String) (now : Int) (key : JWKey)
    (hEmail : (email == "") = false)
    (hSub : (sub == "") = false)
    (hHead : s.keys.head? = some key)
    (hAlgo : key.algorithm ∈ SignatureAlgorithms) :
    ∃ t st, TokenForUser s email sub now = .ok t
      ∧ TokenSerialize s t = .ok st
      ∧ ValidateToken (PublicSetOf s) now st = .ok t
      ∧ TokenFields t = .ok (sub, email) := by
  have hfind : (SignatureAlgorithms.find? (fun sa => sa == key.algorithm)).isSome := by
    rw [List.find?_isSome]
    exact ⟨key.algorithm, hAlgo, by simp⟩
  obtain ⟨sa, hsa⟩ := Option.isSome_iff_exists.mp hfind
  have hAK : signatureAlgoAndKey s = .ok (sa, key) := by
    simp only [signatureAlgoAndKey, hHead, hsa]
  have hTok : tokenForUser email sub now = .ok (tokenForUserClaims email sub now) := by
    unfold tokenForUser
    rw [hEmail, hSub]
    rfl
  refine ⟨tokenForUserClaims email sub now,
          .token (tokenForUserClaims email sub now) (.valid key), ?_, ?_, ?_, ?_⟩
  · unfold TokenForUser
    rw [hAK, hTok]
  · unfold TokenSerialize
    rw [hAK]
  · have hmem : key ∈ s.keys := by
      cases hk : s.keys with
      | nil => rw [hk] at hHead; simp at hHead
      | cons a l =>
        rw [hk] at hHead
        simp at hHead
        simp [hHead]
    have hkid : (PublicSetOf s).keys.any (fun k2 => k2.kid == key.kid) = true := by
      rw [List.any_eq_true]
      refine ⟨{ key with hasPrivate := false }, ?_, by simp⟩
      exact List.mem_map.mpr ⟨key, hmem, rfl⟩
    have hparse : jwtParseWithKeySet (PublicSetOf s)
        (.token (tokenForUserClaims email sub now) (.valid key))
        = .ok (tokenForUserClaims email sub now) := by
      have hred : jwtParseWithKeySet (PublicSetOf s)
          (.token (tokenForUserClaims email sub now) (.valid key))
          = if ((PublicSetOf s).keys.any fun k2 => k2.kid == key.kid) = true
            then .ok (tokenForUserClaims email sub now)
            else .error .verifyFailure := rfl
      rw [hred, hkid]
      simp
    have hnl : ¬ (expiration (tokenForUserClaims email sub now) < now) := by
      rw [show expiration (tokenForUserClaims email sub now) = now + TTL from rfl, TTL]
      omega
    simp [ValidateToken, hparse, hnl]
  · have hTF : TokenFields (tokenForUserClaims email sub now)
        = if (sub == "") = true then .err ("sub field missing")
          else .ok (sub, email) := rfl
    rw [hTF, hSub]
    simp

/-- Witness for token_roundtrip: the round trip at a concrete key set,
email and subject. -/
theorem token_roundtrip_witness :
    (∃ t st,
      TokenForUser ⟨[⟨1, "RS256", true⟩]⟩ ("user@example.com") ("subject-1") 0 = .ok t
      ∧ TokenSerialize ⟨[⟨1, "RS256", true⟩]⟩ t = .ok st
      ∧ ValidateToken (PublicSetOf ⟨[⟨1, "RS256", true⟩]⟩) 0 st = .ok t
      ∧ TokenFields t = .ok (("subject-1"), ("user@example.com"))) :=
  token_roundtrip ⟨[⟨1, "RS256", true⟩]⟩ ("user@example.com") ("subject-1") 0
    ⟨1, "RS256", true⟩ (by decide) (by decide) (by rfl) (by decide)

/-!
Claims about the api handlers.
-/

/-- Claim C8. checkUserQuotas computes the exceeded flag as upload count
strictly above the tier maximum or total upload size strictly above the
tier storage limit, stores it on the user exactly when it differs from
the previously stored flag, and does nothing when the stats fetch
failed. -/
theorem checkUserQuotas_spec (userLimits : Nat → TierLimits) (u : User) (us : UserStats) :
    ((checkUserQuotas userLimits u (some us)).1.quotaExceeded =
      (decide (us.numUploads > (userLimits u.tier).maxNumberUploads) ||
       decide (us.totalUploadsSize > (userLimits u.tier).storage)))
    ∧ ((checkUserQuotas userLimits u (some us)).2 =
      ((decide (us.numUploads > (userLimits u.tier).maxNumberUploads) ||
        decide (us.totalUploadsSize > (userLimits u.tier).storage)) != u.quotaExceeded))
    ∧ checkUserQuotas userLimits u none = (u, false) := by
  have hsome : checkUserQuotas userLimits u (some us)
      = (if ((decide (us.numUploads > (userLimits u.tier).maxNumberUploads) ||
              decide (us.totalUploadsSize > (userLimits u.tier).storage)) != u.quotaExceeded)
         then ({ u with quotaExceeded :=
                  (decide (us.numUploads > (userLimits u.tier).maxNumberUploads) ||
                   decide (us.totalUploadsSize > (userLimits u.tier).storage)) }, true)
         else (u, false)) := rfl
  refine ⟨?_, ?_, rfl⟩
  · rw [hsome]
    split
    · rfl
    · next h =>
      simp only [bne_iff_ne, ne_eq, not_not] at h
      simp [h]
  · rw [hsome]
    split
    · next h => exact h.symm
    · next h =>
      simp only [bne_iff_ne, ne_eq, not_not] at h
      simp [h]

/-- Claim C10. When both the email and the password form values are
non-empty, loginPOST dispatches to the credentials helper with exactly
those values, ignoring any token attached to the request; the token
helper is invoked exactly when at least one of the two values is empty. -/
theorem loginPOST_dispatch (req : LoginRequest) :
    (req.email ≠ "" → req.password ≠ "" →
      loginPOST req = .credentials req.email req.password)
    ∧ (loginPOST req = .token req.token ↔ (req.email = "" ∨ req.password = "")) := by
  constructor
  · intro he hp
    have hcond : (req.email != "" && req.password != "") = true := by
      simp [bne_iff_ne, he, hp]
    unfold loginPOST
    rw [hcond]
    simp
  · constructor
    · intro h
      by_contra hcon
      push_neg at hcon
      obtain ⟨he, hp⟩ := hcon
      have hcond : (req.email != "" && req.password != "") = true := by
        simp [bne_iff_ne, he, hp]
      unfold loginPOST at h
      rw [hcond] at h
      simp at h
    · intro h
      have hcond : (req.email != "" && req.password != "") = false := by
        rcases h with h | h <;> simp [h]
      unfold loginPOST
      rw [hcond]
      simp

/-- Witness for loginPOST_dispatch: a request carrying both form values
goes to the credentials helper. -/
theorem loginPOST_dispatch_witness :
    loginPOST ⟨"a@b.c", "hunter2", none⟩ =
      .credentials ("a@b.c") ("hunter2") :=
  (loginPOST_dispatch ⟨"a@b.c", "hunter2", none⟩).1 (by decide) (by decide)
